import Mathlib

/-! Shallow embedding of the report rendering and persistence pipeline of
examples/streamlit_app.py: font provisioning, layout fitting, PDF rendering
with tiered fallback, the SQLite-backed history store, and the research run
driver.  External effectful calls (filesystem, network, fpdf, sqlite) are
modelled as explicit oracle inputs, and Python exceptions are modelled as
Except values threaded through the control flow exactly as the nested
try blocks of the source dictate. -/

/-! ## Font Provisioner (ensure_chinese_font, source lines 34-43) -/

/-- Filesystem state relevant to font provisioning: whether the font file
exists at FONT_PATH and whether FONT_DIR exists. -/
structure FontFs where
  fontFileExists : Bool
  fontDirExists : Bool
deriving DecidableEq

/-- ensure_chinese_font: if the font file exists return (True, None) at once;
otherwise run os.makedirs and urllib.request.urlretrieve inside a try block,
returning (False, str(e)) on any exception.  The mkdirRes and dlRes arguments
are the outcomes of the two external calls; the result is the new filesystem
state, the returned pair, and the number of network calls performed. -/
def ensure_chinese_font (fs : FontFs) (mkdirRes dlRes : Except String Unit) :
    FontFs × (Bool × Option String) × ℕ :=
  if fs.fontFileExists then (fs, (true, none), 0)
  else
    match mkdirRes with
    | .error e => (fs, (false, some e), 0)
    | .ok _ =>
      match dlRes with
      | .error e => ({ fontFileExists := false, fontDirExists := true }, (false, some e), 1)
      | .ok _ => ({ fontFileExists := true, fontDirExists := true }, (true, none), 1)

/-! ## Layout Fitter (choose_font_size, source lines 63-73) -/

/-- Python max over the measured widths of the probe characters at a given
size; w models pdf.get_string_width under pdf.set_font at that size.  As in
Python, the maximum is only meaningful for a nonempty probe list. -/
def maxProbeWidth (w : Char → ℕ → ℚ) (size : ℕ) : List Char → ℚ
  | [] => 0
  | [c] => w c size
  | c :: cs => max (w c size) (maxProbeWidth w size cs)

/-- The test of the while loop body: maximum measured probe width is strictly
below the effective width. -/
def sizeFits (w : Char → ℕ → ℚ) (eff : ℚ) (chars : List Char) (size : ℕ) : Bool :=
  decide (maxProbeWidth w size chars < eff)

/-- The while loop of choose_font_size: starting from a size, return the first
size (counting down) that satisfies the test, or 7 once the counter drops
below 7. -/
def chooseLoop (test : ℕ → Bool) : ℕ → ℕ
  | 0 => 7
  | n + 1 => if n + 1 < 7 then 7 else if test (n + 1) then n + 1 else chooseLoop test n

/-- The probe characters fixed by the source: one wide CJK glyph and one
Latin glyph. -/
def test_chars : List Char := ['汉', 'W']

/-- choose_font_size of the source: loop from 12 downward over the fixed
probe characters. -/
def choose_font_size (w : Char → ℕ → ℚ) (eff : ℚ) : ℕ :=
  chooseLoop (sizeFits w eff test_chars) 12

/-- choose_font_size generalized to an arbitrary probe glyph set, as in the
contract of the Layout Fitter; the source instantiates it at test_chars. -/
def chooseFontSizeWith (w : Char → ℕ → ℚ) (eff : ℚ) (chars : List Char) : ℕ :=
  chooseLoop (sizeFits w eff chars) 12

/-- Effective usable width: page width minus left and right margins
(pdf.w - pdf.l_margin - pdf.r_margin). -/
def effective_width (pageW lMargin rMargin : ℚ) : ℚ := pageW - lMargin - rMargin

/-- Full characterization of the descending while loop: the result is at
least 7 and at most max size 7, no strictly larger size up to the start
satisfies the test, and either the result satisfies the test or it is the
floor 7 and no size in range satisfies the test. -/
theorem chooseLoop_spec (test : ℕ → Bool) (size : ℕ) :
    7 ≤ chooseLoop test size ∧ chooseLoop test size ≤ max size 7 ∧
    (∀ s, chooseLoop test size < s → s ≤ size → test s = false) ∧
    (test (chooseLoop test size) = true ∨
      (chooseLoop test size = 7 ∧ ∀ s, 7 ≤ s → s ≤ size → test s = false)) := by
  induction size with
  | zero =>
    refine ⟨le_refl 7, by simp [chooseLoop], ?_, ?_⟩
    · intro s h1 h2
      omega
    · exact Or.inr ⟨rfl, fun s h1 h2 => by omega⟩
  | succ n ih =>
    obtain ⟨ih1, ih2, ih3, ih4⟩ := ih
    by_cases h7 : n + 1 < 7
    · have hval : chooseLoop test (n + 1) = 7 := by
        simp [chooseLoop, h7]
      rw [hval]
      refine ⟨le_refl 7, le_max_right _ _, ?_, ?_⟩
      · intro s h1 h2
        omega
      · exact Or.inr ⟨rfl, fun s h1 h2 => by omega⟩
    · by_cases ht : test (n + 1) = true
      · have hval : chooseLoop test (n + 1) = n + 1 := by
          simp [chooseLoop, h7, ht]
        rw [hval]
        exact ⟨by omega, le_max_left _ _, fun s h1 h2 => by omega, Or.inl ht⟩
      · have htf : test (n + 1) = false := by
          exact Bool.eq_false_iff.mpr ht
        have hval : chooseLoop test (n + 1) = chooseLoop test n := by
          simp [chooseLoop, h7, htf]
        rw [hval]
        refine ⟨ih1, le_trans ih2 (max_le_max (Nat.le_succ n) le_rfl), ?_, ?_⟩
        · intro s h1 h2
          rcases Nat.lt_or_ge s (n + 1) with h | h
          · exact ih3 s h1 (by omega)
          · have : s = n + 1 := by omega
            exact this ▸ htf
        · rcases ih4 with h | ⟨he, hall⟩
          · exact Or.inl h
          · refine Or.inr ⟨he, fun s h1 h2 => ?_⟩
            rcases Nat.lt_or_ge s (n + 1) with h | h
            · exact hall s h1 (by omega)
            · have : s = n + 1 := by omega
              exact this ▸ htf

/-- C5: for every font-metrics backend, page geometry, and nonempty probe
glyph set (in particular the source probe set containing the wide glyph 汉
and the Latin glyph W), the fitter returns a size in [7, 12]; every strictly
larger size up to 12 fails the width test; the returned size passes the
strict width test against the effective width (page width minus margins) or
is the floor 7 with no size in [7, 12] passing; and the source function
choose_font_size is the instantiation at the fixed probe set. -/
theorem choose_font_size_spec (w : Char → ℕ → ℚ) (pageW lMargin rMargin : ℚ)
    (chars : List Char) (hne : chars ≠ []) :
    (7 ≤ chooseFontSizeWith w (effective_width pageW lMargin rMargin) chars ∧
      chooseFontSizeWith w (effective_width pageW lMargin rMargin) chars ≤ 12) ∧
    (∀ s, chooseFontSizeWith w (effective_width pageW lMargin rMargin) chars < s → s ≤ 12 →
      ¬ maxProbeWidth w s chars < effective_width pageW lMargin rMargin) ∧
    (maxProbeWidth w (chooseFontSizeWith w (effective_width pageW lMargin rMargin) chars) chars
        < effective_width pageW lMargin rMargin ∨
      (chooseFontSizeWith w (effective_width pageW lMargin rMargin) chars = 7 ∧
        ∀ s, 7 ≤ s → s ≤ 12 →
          ¬ maxProbeWidth w s chars < effective_width pageW lMargin rMargin)) ∧
    choose_font_size w (effective_width pageW lMargin rMargin) =
      chooseFontSizeWith w (effective_width pageW lMargin rMargin) test_chars := by
  obtain ⟨h1, h2, h3, h4⟩ :=
    chooseLoop_spec (sizeFits w (effective_width pageW lMargin rMargin) chars) 12
  refine ⟨⟨h1, by simpa using h2⟩, ?_, ?_, rfl⟩
  · intro s hs1 hs2
    have := h3 s hs1 hs2
    simpa [sizeFits] using this
  · rcases h4 with h | ⟨he, hall⟩
    · exact Or.inl (by simpa [sizeFits] using h)
    · refine Or.inr ⟨he, fun s hs1 hs2 => ?_⟩
      have := hall s hs1 hs2
      simpa [sizeFits] using this

/-- C5 witness: with a width backend measuring 1 for every glyph and an A4
page with the source margins, the largest candidate size 12 is accepted. -/
theorem choose_font_size_spec_witness :
    (7 ≤ chooseFontSizeWith (fun _ _ => 1) (effective_width 210 12 12) test_chars ∧
      chooseFontSizeWith (fun _ _ => 1) (effective_width 210 12 12) test_chars ≤ 12) :=
  (choose_font_size_spec (fun _ _ => 1) 210 12 12 test_chars (by decide)).1

/-- C8: font provisioning is idempotent and total.  With the file present it
returns (true, none) at once with zero network calls and an unchanged
filesystem; its returned pair is always (true, none) or (false, message); a
successful call leaves the file present, so an immediately following call
performs zero network calls; with the file absent, a successful directory
creation and download yield (true, none) with one network call, while a
download failure is returned as (false, message) rather than raised. -/
theorem ensure_chinese_font_spec (fs : FontFs) (mk dl : Except String Unit) :
    (fs.fontFileExists = true → ensure_chinese_font fs mk dl = (fs, (true, none), 0)) ∧
    ((ensure_chinese_font fs mk dl).2.1 = (true, none) ∨
      ∃ m, (ensure_chinese_font fs mk dl).2.1 = (false, some m)) ∧
    ((ensure_chinese_font fs mk dl).2.1.1 = true →
      ∀ mk2 dl2, ensure_chinese_font (ensure_chinese_font fs mk dl).1 mk2 dl2 =
        ((ensure_chinese_font fs mk dl).1, (true, none), 0)) ∧
    (fs.fontFileExists = false → mk = .ok () → dl = .ok () →
      (ensure_chinese_font fs mk dl).2 = ((true, none), 1)) ∧
    (∀ e, fs.fontFileExists = false → mk = .ok () → dl = .error e →
      (ensure_chinese_font fs mk dl).2 = ((false, some e), 1)) := by
  obtain ⟨fe, de⟩ := fs
  cases fe <;> cases mk <;> cases dl <;>
    simp [ensure_chinese_font]

/-- C8 witness: concrete instantiation with the font file already present
returns (true, none) immediately, with zero network calls. -/
theorem ensure_chinese_font_spec_witness :
    ensure_chinese_font ⟨true, false⟩ (.ok ()) (.ok ()) = (⟨true, false⟩, (true, none), 0) :=
  (ensure_chinese_font_spec ⟨true, false⟩ (.ok ()) (.ok ())).1 rfl

/-! ## Document Renderer (generate_pdf_report, source lines 50-119) -/

/-- Characters stripped by Python str.strip with no argument: the ASCII
whitespace and the common Unicode whitespace code points. -/
def isPySpace (c : Char) : Bool :=
  c == ' ' || c == '\t' || c == '\n' || c == '\r' || c == '\x0b' || c == '\x0c' ||
  c == '\x1c' || c == '\x1d' || c == '\x1e' || c == '\x1f' || c == '\x85' || c == '\xa0' ||
  c == ' ' || (0x2000 ≤ c.toNat && c.toNat ≤ 0x200a) || c == ' ' || c == ' ' ||
  c == ' ' || c == ' ' || c == '　'

/-- Python line.strip(): drop whitespace from both ends. -/
def pyStrip (s : String) : String :=
  String.mk (((s.toList.dropWhile fun c => isPySpace c).reverse.dropWhile
    fun c => isPySpace c).reverse)

/-- Python "​".join(list(line)): the line with a zero-width space
inserted between every pair of adjacent characters. -/
def zwspJoin (line : String) : String :=
  String.intercalate "​" (line.toList.map fun c => String.mk [c])

/-- Python line.encode("latin-1", "replace").decode("latin-1"): characters
above code point 255 are replaced by the placeholder question mark. -/
def asciiFallback (line : String) : String :=
  String.mk (line.toList.map fun c => if c.toNat ≤ 255 then c else '?')

/-- Python content.split over a single newline separator: every newline is a
split point and empty pieces are kept. -/
def splitLinesAux : List Char → List Char → List String
  | [], acc => [String.mk acc.reverse]
  | c :: cs, acc =>
    if c = '\n' then String.mk acc.reverse :: splitLinesAux cs []
    else splitLinesAux cs (c :: acc)

/-- Python content.split on newline. -/
def splitLines (s : String) : List String := splitLinesAux s.toList []

/-- Outcome of the plain-text tier for one line: a whitespace-only line only
advances the cursor (pdf.ln), a drawn line records the list of strings that
were passed to pdf.multi_cell, in order, the last of which succeeded. -/
inductive LineStep where
  | blank
  | drawn (attempts : List String)
deriving DecidableEq

/-- Vertical cursor advance of one line step: pdf.ln advances by exactly one
line height; the advance of a drawn line is owned by fpdf (oracle). -/
def stepAdvance (lineHeight : ℚ) (drawnAdvance : List String → ℚ) : LineStep → ℚ
  | .blank => lineHeight
  | .drawn as => drawnAdvance as

/-- The strings actually passed to pdf.multi_cell for one line, in order:
none for a blank line, then the line itself, the zero-width-space joined
line if the first call raised, and the latin-1 fallback if the second also
raised.  The attempt oracle models whether a pdf.multi_cell call raises. -/
def lineAttempts (attempt : String → Except String Unit) (line : String) : List String :=
  if pyStrip line = "" then []
  else
    match attempt line with
    | .ok _ => [line]
    | .error _ =>
      match attempt (zwspJoin line) with
      | .ok _ => [line, zwspJoin line]
      | .error _ => [line, zwspJoin line, asciiFallback line]

/-- Per-line control flow of the plain-text tier, source lines 94-110: blank
lines advance the cursor; otherwise try the line, then the zero-width-space
variant, then the latin-1 fallback.  The third call is not wrapped in a
handler, so when it raises the exception propagates out of the loop. -/
def renderLine (attempt : String → Except String Unit) (line : String) :
    Except String LineStep :=
  if pyStrip line = "" then .ok .blank
  else
    match attempt line with
    | .ok _ => .ok (.drawn [line])
    | .error _ =>
      match attempt (zwspJoin line) with
      | .ok _ => .ok (.drawn [line, zwspJoin line])
      | .error _ =>
        match attempt (asciiFallback line) with
        | .ok _ => .ok (.drawn [line, zwspJoin line, asciiFallback line])
        | .error e => .error e

/-- The plain-text tier loop over all lines; an exception raised by a line
with all three calls failing aborts the remaining lines. -/
def plainTier (attempt : String → Except String Unit) :
    List String → Except String (List LineStep)
  | [] => .ok []
  | l :: ls =>
    match renderLine attempt l with
    | .error e => .error e
    | .ok step =>
      match plainTier attempt ls with
      | .error e => .error e
      | .ok steps => .ok (step :: steps)

/-- Oracle inputs of generate_pdf_report: filesystem and the outcomes of the
external calls (directory creation, font download, fpdf setup, the optional
markdown-to-HTML tier, each pdf.multi_cell call, and pdf.output). -/
structure PdfOracles where
  fs : FontFs
  mkdirRes : Except String Unit
  dlRes : Except String Unit
  mdAvailable : Bool
  htmlRender : Except Unit Unit
  setup : Except String Unit
  attempt : String → Except String Unit
  output : Except String (List ℕ)

/-- The body of the try block of generate_pdf_report: fpdf setup, then the
HTML tier when the markdown module is importable and write_html does not
raise (its exception is swallowed and rendered falls back), otherwise the
plain-text tier, and finally pdf.output. -/
def renderTiers (o : PdfOracles) (content : String) : Except String (List ℕ) :=
  match o.setup with
  | .error e => .error e
  | .ok _ =>
    let htmlRendered := o.mdAvailable &&
      (match o.htmlRender with
       | .ok _ => true
       | .error _ => false)
    if htmlRendered then o.output
    else
      match plainTier o.attempt (splitLines content) with
      | .error e => .error e
      | .ok _ => o.output

/-- generate_pdf_report: provision the font and fail with the 下载中文字体失败
message when provisioning fails; otherwise run the tiers inside the try
block, mapping any escaping exception to (None, str(e)). -/
def generate_pdf_report (o : PdfOracles) (content : String) :
    Option (List ℕ) × Option String :=
  let fres := (ensure_chinese_font o.fs o.mkdirRes o.dlRes).2.1
  if fres.1 = true then
    match renderTiers o content with
    | .ok bs => (some bs, none)
    | .error e => (none, some e)
  else (none, some ("下载中文字体失败: " ++ fres.2.getD ""))

/-- C1: the PDF render operation never raises: for every input and every
behaviour of the external calls, it returns (some bytes, none) or
(none, message); when font provisioning fails with message e it returns
(none, message) where the message extends the phrase 下载中文字体失败; and any
exception escaping the rendering tiers is caught and returned as
(none, message). -/
theorem generate_pdf_report_total (o : PdfOracles) (content : String) :
    ((∃ bs, generate_pdf_report o content = (some bs, none)) ∨
      (∃ m, generate_pdf_report o content = (none, some m))) ∧
    (∀ e, (ensure_chinese_font o.fs o.mkdirRes o.dlRes).2.1 = (false, some e) →
      generate_pdf_report o content = (none, some ("下载中文字体失败: " ++ e)) ∧
      ∃ rest, ("下载中文字体失败: " ++ e) = "下载中文字体失败" ++ rest) ∧
    (∀ e, (ensure_chinese_font o.fs o.mkdirRes o.dlRes).2.1.1 = true →
      renderTiers o content = .error e →
      generate_pdf_report o content = (none, some e)) := by
  refine ⟨?_, ?_, ?_⟩
  · by_cases hb : (ensure_chinese_font o.fs o.mkdirRes o.dlRes).2.1.1 = true
    · cases hrt : renderTiers o content with
      | ok bs => exact Or.inl ⟨bs, by simp [generate_pdf_report, hb, hrt]⟩
      | error e => exact Or.inr ⟨e, by simp [generate_pdf_report, hb, hrt]⟩
    · exact Or.inr
        ⟨"下载中文字体失败: " ++ ((ensure_chinese_font o.fs o.mkdirRes o.dlRes).2.1.2.getD ""),
          by simp [generate_pdf_report, hb]⟩
  · intro e he
    constructor
    · simp [generate_pdf_report, he]
    · refine ⟨": " ++ e, ?_⟩
      have h : ("下载中文字体失败: " : String) = "下载中文字体失败" ++ ": " := by decide
      rw [h, String.append_assoc]
  · intro e hb hrt
    simp [generate_pdf_report, hb, hrt]

/-- Concrete oracle set for the C1 witness: the font file is absent and the
download endpoint is unreachable. -/
def pdfFontFailOracles : PdfOracles :=
  { fs := ⟨false, false⟩, mkdirRes := .ok (), dlRes := .error "connection refused",
    mdAvailable := true, htmlRender := .ok (), setup := .ok (),
    attempt := fun _ => .ok (), output := .ok [1] }

/-- C1 witness: with the font absent and the download unreachable, the
render returns (none, message) with the 下载中文字体失败 message. -/
theorem generate_pdf_report_total_witness :
    generate_pdf_report pdfFontFailOracles "report" =
      (none, some ("下载中文字体失败: " ++ "connection refused")) :=
  ((generate_pdf_report_total pdfFontFailOracles "report").2.1 "connection refused" rfl).1

/-- Helper: dropWhile of a list all of whose elements satisfy the predicate
is empty. -/
theorem dropWhile_all_space {p : Char → Bool} :
    ∀ l : List Char, (∀ c ∈ l, p c = true) → l.dropWhile p = []
  | [], _ => rfl
  | c :: cs, h => by
    rw [List.dropWhile_cons, if_pos (h c (List.mem_cons_self c cs))]
    exact dropWhile_all_space cs fun x hx => h x (List.mem_cons_of_mem c hx)

/-- A line all of whose characters are whitespace strips to the empty
string. -/
theorem pyStrip_eq_empty_of_all_space (line : String)
    (h : ∀ c ∈ line.toList, isPySpace c = true) : pyStrip line = "" := by
  unfold pyStrip
  rw [dropWhile_all_space _ h]
  rfl

/-- C10: a line consisting entirely of whitespace characters (not only the
empty string) takes the blank branch of the plain-text tier: no rendering
strategy is attempted for it, and the step it produces advances the cursor
by exactly one line height. -/
theorem blank_line_no_attempts (attempt : String → Except String Unit) (line : String)
    (hne : line ≠ "") (hws : ∀ c ∈ line.toList, isPySpace c = true)
    (lh : ℚ) (dh : List String → ℚ) :
    renderLine attempt line = .ok .blank ∧
    lineAttempts attempt line = [] ∧
    stepAdvance lh dh LineStep.blank = lh := by
  have hstrip := pyStrip_eq_empty_of_all_space line hws
  refine ⟨?_, ?_, rfl⟩ <;> simp [renderLine, lineAttempts, hstrip]

/-- C10 witness: a nonempty line of one space and one ideographic space is
blank, regardless of the pdf.multi_cell oracle. -/
theorem blank_line_no_attempts_witness :
    renderLine (fun _ => .error "boom") " 　" = .ok .blank :=
  (blank_line_no_attempts (fun _ => .error "boom") " 　" (by decide) (by decide) 0
    (fun _ => 0)).1

/-- The strings passed to pdf.multi_cell for one line: never more than three,
and always an ordered prefix of direct line, zero-width-space variant,
latin-1 fallback. -/
theorem lineAttempts_spec (attempt : String → Except String Unit) (line : String) :
    (lineAttempts attempt line).length ≤ 3 ∧
    lineAttempts attempt line <+: [line, zwspJoin line, asciiFallback line] := by
  unfold lineAttempts
  by_cases hb : pyStrip line = ""
  · rw [if_pos hb]
    exact ⟨by simp, ⟨[line, zwspJoin line, asciiFallback line], rfl⟩⟩
  · rw [if_neg hb]
    cases h1 : attempt line with
    | ok u => exact ⟨by simp, ⟨[zwspJoin line, asciiFallback line], rfl⟩⟩
    | error e1 =>
      cases h2 : attempt (zwspJoin line) with
      | ok u => exact ⟨by simp, ⟨[asciiFallback line], rfl⟩⟩
      | error e2 => exact ⟨by simp, ⟨[], by simp⟩⟩

/-- A line whose latin-1 fallback call succeeds never raises out of the
per-line handler chain. -/
theorem renderLine_ok_of_fallback (attempt : String → Except String Unit) (l : String)
    (h : attempt (asciiFallback l) = .ok ()) :
    ∃ step, renderLine attempt l = .ok step := by
  unfold renderLine
  by_cases hb : pyStrip l = ""
  · rw [if_pos hb]
    exact ⟨.blank, rfl⟩
  · rw [if_neg hb]
    cases h1 : attempt l with
    | ok u => exact ⟨_, rfl⟩
    | error e1 =>
      cases h2 : attempt (zwspJoin l) with
      | ok u => exact ⟨_, rfl⟩
      | error e2 =>
        rw [h]
        exact ⟨_, rfl⟩

/-- If the latin-1 fallback call succeeds for every line, the plain-text
tier processes all lines without raising. -/
theorem plainTier_ok_of_fallback (attempt : String → Except String Unit) :
    ∀ lines : List String, (∀ l ∈ lines, attempt (asciiFallback l) = .ok ()) →
      ∃ steps, plainTier attempt lines = .ok steps
  | [], _ => ⟨[], rfl⟩
  | l :: ls, h => by
    obtain ⟨step, hs⟩ := renderLine_ok_of_fallback attempt l (h l (List.mem_cons_self l ls))
    obtain ⟨steps, hss⟩ :=
      plainTier_ok_of_fallback attempt ls fun x hx => h x (List.mem_cons_of_mem l hx)
    exact ⟨step :: steps, by simp [plainTier, hs, hss]⟩

/-- C2 (amended): per line at most the three ranked strategies are attempted,
in order (direct, zero-width-space variant, latin-1 fallback); and provided
the unguarded third call succeeds on the fallback form of every line, the
whole render completes and returns the serialized bytes with no error — in
particular on text containing an unbreakable token wider than the page. -/
theorem pdf_render_completes_of_fallback_ok (o : PdfOracles) (content : String)
    (hfont : (ensure_chinese_font o.fs o.mkdirRes o.dlRes).2.1.1 = true)
    (hsetup : o.setup = .ok ()) (bs : List ℕ) (hout : o.output = .ok bs)
    (hthird : ∀ l, o.attempt (asciiFallback l) = .ok ()) :
    generate_pdf_report o content = (some bs, none) ∧
    (∀ line, (lineAttempts o.attempt line).length ≤ 3 ∧
      lineAttempts o.attempt line <+: [line, zwspJoin line, asciiFallback line]) := by
  constructor
  · have hrt : renderTiers o content = .ok bs := by
      unfold renderTiers
      rw [hsetup]
      by_cases hh : (o.mdAvailable &&
          (match o.htmlRender with
           | .ok _ => true
           | .error _ => false)) = true
      · simp only [hh, if_true]
        exact hout
      · simp only [if_neg hh]
        obtain ⟨steps, hpt⟩ :=
          plainTier_ok_of_fallback o.attempt (splitLines content) fun l _ => hthird l
        rw [hpt]
        exact hout
    simp [generate_pdf_report, hfont, hrt]
  · exact fun line => lineAttempts_spec o.attempt line

/-- Concrete oracle set for the C2 witness: font present, markdown module
absent, every pdf.multi_cell call succeeds. -/
def pdfOkOracles : PdfOracles :=
  { fs := ⟨true, true⟩, mkdirRes := .ok (), dlRes := .ok (),
    mdAvailable := false, htmlRender := .error (), setup := .ok (),
    attempt := fun _ => .ok (), output := .ok [37, 80, 68, 70] }

/-- C2 witness: a concrete render through the plain-text tier completes with
bytes and no error. -/
theorem pdf_render_completes_of_fallback_ok_witness :
    generate_pdf_report pdfOkOracles "第一段\n\nWWWW" = (some [37, 80, 68, 70], none) :=
  (pdf_render_completes_of_fallback_ok pdfOkOracles "第一段\n\nWWWW" rfl rfl
    [37, 80, 68, 70] rfl (fun _ => rfl)).1

/-- A pdf.multi_cell oracle that raises on every call. -/
def failingAttempt : String → Except String Unit := fun _ => .error "FPDFException"

/-- Concrete oracle set for the C2 counterexample: font present, markdown
module absent, every pdf.multi_cell call raises. -/
def pdfPlainFailOracles : PdfOracles :=
  { fs := ⟨true, true⟩, mkdirRes := .ok (), dlRes := .ok (),
    mdAvailable := false, htmlRender := .error (), setup := .ok (),
    attempt := failingAttempt, output := .ok [1] }

/-- A 400-character unbreakable token, the unbreakable-token scenario of the
spec. -/
def longToken : String := String.mk (List.replicate 400 'W')

set_option maxRecDepth 40000 in
/-- C2 counterexample: when the three pdf.multi_cell calls of one problematic
line all raise, the third, unguarded call propagates its exception to the
outer handler and the whole render returns (none, message) — the document is
aborted because of one line, and no bytes are returned for the
unbreakable-token input. -/
theorem generate_pdf_report_abort_cex :
    generate_pdf_report pdfPlainFailOracles longToken = (none, some "FPDFException") ∧
      (generate_pdf_report pdfPlainFailOracles longToken).1 = none := by
  constructor <;> rfl

/-! ## History Store (source lines 122-180 and the inline save at 552-568) -/

/-- A row of the research_history table. -/
structure HistoryRow where
  id : ℕ
  query : String
  report : String
  created_at : ℕ
deriving DecidableEq

/-- The history database file: none models the table not existing yet (a
fresh database file); the sequence models the AUTOINCREMENT counter. -/
structure HistoryDb where
  table : Option (List HistoryRow)
  seq : ℕ
deriving DecidableEq

/-- The sqlite error text for a statement against a missing table. -/
def noTableMsg : String := "no such table: research_history"

/-- CREATE TABLE IF NOT EXISTS research_history. -/
def createTableIfAbsent (db : HistoryDb) : HistoryDb :=
  match db.table with
  | none => { db with table := some [] }
  | some _ => db

/-- Insertion step for ORDER BY created_at DESC. -/
def insertDesc (r : HistoryRow) : List HistoryRow → List HistoryRow
  | [] => [r]
  | x :: xs => if x.created_at < r.created_at then r :: x :: xs else x :: insertDesc r xs

/-- SELECT ... ORDER BY created_at DESC. -/
def sortByCreatedDesc (rows : List HistoryRow) : List HistoryRow :=
  rows.foldr insertDesc []

/-- get_history_records: CREATE TABLE IF NOT EXISTS, then full scan ordered
by creation time descending; errors fall back to the empty list plus a
reported message. -/
def get_history_records (db : HistoryDb) : HistoryDb × List HistoryRow × Option String :=
  let db2 := createTableIfAbsent db
  match db2.table with
  | some rows => (db2, sortByCreatedDesc rows, none)
  | none => (db2, [], some ("读取历史记录失败: " ++ noTableMsg))

/-- get_history_record_by_id: SELECT ... WHERE id = ? with fetchone; note
that no create-table statement precedes the select, so a fresh database
yields a caught missing-table error and the function returns none with the
reported message. -/
def get_history_record_by_id (db : HistoryDb) (rid : ℕ) :
    Option HistoryRow × Option String :=
  match db.table with
  | none => (none, some ("读取历史记录失败: " ++ noTableMsg))
  | some rows => (rows.find? fun r => r.id == rid, none)

/-- delete_history_record: DELETE ... WHERE id = ?, commit, return True; no
create-table statement precedes the delete and no row count is inspected, so
the function returns True whenever the statement executes, and False only
when the storage layer raises (e.g. missing table on a fresh database). -/
def delete_history_record (db : HistoryDb) (rid : ℕ) :
    HistoryDb × Bool × Option String :=
  match db.table with
  | none => (db, false, some ("删除历史记录失败: " ++ noTableMsg))
  | some rows =>
    ({ db with table := some (rows.filter fun r => !(r.id == rid)) }, true, none)

/-- The inline save of execute_research: CREATE TABLE IF NOT EXISTS followed
by INSERT with an explicit created_at; the AUTOINCREMENT id assigned to the
new row is returned. -/
def save_history (db : HistoryDb) (q report : String) (t : ℕ) : HistoryDb × ℕ :=
  let db2 := createTableIfAbsent db
  let rows := db2.table.getD []
  let newId := db2.seq + 1
  ({ table := some (rows ++ [{ id := newId, query := q, report := report, created_at := t }]),
     seq := newId }, newId)

/-- Database well-formedness: every stored row has an id at most the
AUTOINCREMENT counter (sqlite maintains this for AUTOINCREMENT keys). -/
def HistoryWf (db : HistoryDb) : Prop :=
  ∀ r ∈ db.table.getD [], r.id ≤ db.seq

/-- C3 counterexample: in a store where id 5 does not exist (the table is
present and empty), delete returns True, not False, so the boolean result
does not distinguish deleting a missing id from removing a row. -/
theorem delete_nonexistent_returns_true_cex :
    (get_history_record_by_id ⟨some [], 0⟩ 5).1 = none ∧
    (delete_history_record ⟨some [], 0⟩ 5).2.1 = true ∧
    (delete_history_record ⟨some [], 0⟩ 5).2.1 ≠ false := by
  refine ⟨rfl, rfl, by decide⟩

/-- C3 (amended): delete returns True whenever the DELETE statement executes
without a storage error, whether or not any row matched the id; it returns
False exactly when the storage layer raises, e.g. on a fresh database with
no table. -/
theorem delete_history_record_spec (db : HistoryDb) (rid : ℕ) :
    (∀ rows, db.table = some rows →
      delete_history_record db rid =
        ({ db with table := some (rows.filter fun r => !(r.id == rid)) }, true, none)) ∧
    (db.table = none →
      delete_history_record db rid = (db, false, some ("删除历史记录失败: " ++ noTableMsg))) := by
  constructor
  · intro rows hrows
    simp [delete_history_record, hrows]
  · intro hn
    simp [delete_history_record, hn]

/-- C3 witness: deleting from a present-but-empty table returns True with no
error. -/
theorem delete_history_record_spec_witness :
    delete_history_record ⟨some [], 0⟩ 5 =
      ({ table := some (List.filter (fun r => !(r.id == 5)) []), seq := 0 }, true, none) :=
  (delete_history_record_spec ⟨some [], 0⟩ 5).1 [] rfl

/-- C4 counterexample: against a fresh database file (no table), fetching by
id and deleting both fail with the caught missing-table error instead of
succeeding, because neither operation executes a create-table-if-absent
step. -/
theorem fresh_db_get_delete_error_cex :
    (get_history_record_by_id ⟨none, 0⟩ 1).2 = some ("读取历史记录失败: " ++ noTableMsg) ∧
    (delete_history_record ⟨none, 0⟩ 1).2.2 = some ("删除历史记录失败: " ++ noTableMsg) ∧
    (delete_history_record ⟨none, 0⟩ 1).2.1 = false := ⟨rfl, rfl, rfl⟩

/-- C4 (amended): only list-all and save run the create-if-absent step
before touching the table, and so succeed on any database; fetch-by-id and
delete run no create step: on a fresh database they fail with a reported
missing-table error (fetch returns absent, delete returns False), while on a
database whose table exists they run without error. -/
theorem schema_create_coverage (db : HistoryDb) (rid : ℕ) (q rep : String) (t : ℕ) :
    ((get_history_records db).1.table ≠ none ∧ (get_history_records db).2.2 = none) ∧
    ((save_history db q rep t).1.table ≠ none) ∧
    (db.table = none →
      (get_history_record_by_id db rid).2 ≠ none ∧
      (delete_history_record db rid).2.1 = false ∧
      (delete_history_record db rid).2.2 ≠ none) ∧
    (db.table ≠ none →
      (get_history_record_by_id db rid).2 = none ∧
      (delete_history_record db rid).2.2 = none) := by
  obtain ⟨tab, sq⟩ := db
  cases tab <;>
    simp [get_history_records, createTableIfAbsent, save_history,
      get_history_record_by_id, delete_history_record]

/-- C4 witness: on a fresh database, list-all succeeds with no error while
fetch-by-id reports an error. -/
theorem schema_create_coverage_witness :
    ((get_history_records ⟨none, 0⟩).1.table ≠ none ∧
      (get_history_records ⟨none, 0⟩).2.2 = none) ∧
    ((get_history_record_by_id ⟨none, 0⟩ 1).2 ≠ none ∧
      (delete_history_record ⟨none, 0⟩ 1).2.1 = false ∧
      (delete_history_record ⟨none, 0⟩ 1).2.2 ≠ none) :=
  ⟨(schema_create_coverage ⟨none, 0⟩ 1 "q" "r" 0).1,
    (schema_create_coverage ⟨none, 0⟩ 1 "q" "r" 0).2.2.1 rfl⟩

/-- Helper: find? skips a prefix on which the predicate is false. -/
theorem history_find_append (p : HistoryRow → Bool) :
    ∀ l1 l2 : List HistoryRow, (∀ x ∈ l1, p x = false) →
      (l1 ++ l2).find? p = l2.find? p
  | [], _, _ => rfl
  | a :: as, l2, h => by
    have ha : p a = false := h a (List.mem_cons_self a as)
    rw [List.cons_append, List.find?_cons_of_neg _ (by simp [ha])]
    exact history_find_append p as l2 fun x hx => h x (List.mem_cons_of_mem a hx)

/-- C7: history round-trip.  Saving query q with report body r and fetching
the newly assigned id returns a row whose query is q and whose report is r
stored verbatim; deleting that id and fetching it again returns absent. -/
theorem history_roundtrip (db : HistoryDb) (hwf : HistoryWf db) (q rep : String) (t : ℕ) :
    (∃ row, get_history_record_by_id (save_history db q rep t).1 (save_history db q rep t).2 =
        (some row, none) ∧ row.query = q ∧ row.report = rep) ∧
    get_history_record_by_id
        (delete_history_record (save_history db q rep t).1 (save_history db q rep t).2).1
        (save_history db q rep t).2 = (none, none) := by
  have hsave : save_history db q rep t =
      ({ table := some ((db.table.getD []) ++ [⟨db.seq + 1, q, rep, t⟩]), seq := db.seq + 1 },
        db.seq + 1) := by
    obtain ⟨tab, sq⟩ := db
    cases tab <;> rfl
  have hall : ∀ x ∈ db.table.getD [], ((fun r => r.id == db.seq + 1) x) = false := by
    intro x hx
    have h1 : x.id ≤ db.seq := hwf x hx
    have h2 : x.id ≠ db.seq + 1 := by omega
    simp [h2]
  have hfind := history_find_append (fun r => r.id == db.seq + 1) (db.table.getD [])
    [⟨db.seq + 1, q, rep, t⟩] hall
  rw [hsave]
  constructor
  · refine ⟨⟨db.seq + 1, q, rep, t⟩, ?_, rfl, rfl⟩
    simp only [get_history_record_by_id]
    rw [hfind]
    simp [List.find?]
  · have hnone : ((((db.table.getD []) ++ [(⟨db.seq + 1, q, rep, t⟩ : HistoryRow)]).filter
        fun r => !(r.id == db.seq + 1)).find? fun r => r.id == db.seq + 1) = none := by
      rw [List.find?_eq_none]
      intro x hx
      have hmem := List.mem_filter.mp hx
      simpa using hmem.2
    simp [delete_history_record, get_history_record_by_id, hnone]

/-- C7 witness: round-trip on a concrete fresh store. -/
theorem history_roundtrip_witness :
    (∃ row, get_history_record_by_id
        (save_history ⟨none, 0⟩ "量子计算的发展现状" "正文" 7).1
        (save_history ⟨none, 0⟩ "量子计算的发展现状" "正文" 7).2 =
        (some row, none) ∧ row.query = "量子计算的发展现状" ∧ row.report = "正文") ∧
    get_history_record_by_id
        (delete_history_record (save_history ⟨none, 0⟩ "量子计算的发展现状" "正文" 7).1
          (save_history ⟨none, 0⟩ "量子计算的发展现状" "正文" 7).2).1
        (save_history ⟨none, 0⟩ "量子计算的发展现状" "正文" 7).2 = (none, none) :=
  history_roundtrip ⟨none, 0⟩ (by intro r hr; simp at hr) "量子计算的发展现状" "正文" 7

/-! ## Research Run Driver (execute_research, source lines 501-578) -/

/-- The user-facing error of the outer handler of execute_research. -/
def runErrMsg (e : String) : String := "研究过程中发生错误: " ++ e

/-- The warning of the inner database-save handler of execute_research. -/
def dbWarnMsg (e : String) : String := "历史记录存储失败: " ++ e

/-- The Python progress value computed after the initial search of paragraph
i of N: 20 + (i + 0.5) / total_paragraphs * 60, in exact arithmetic. -/
def progressAfterSearch (N i : ℕ) : ℚ := 20 + ((i : ℚ) + 0.5) / (N : ℚ) * 60

/-- The Python progress value computed after the reflection loop of
paragraph i of N: 20 + (i + 1) / total_paragraphs * 60. -/
def progressAfterReflect (N i : ℕ) : ℚ := 20 + ((i : ℚ) + 1) / (N : ℚ) * 60

/-- Python int(): truncation toward zero. -/
def pyInt (q : ℚ) : ℤ := if 0 ≤ q then ⌊q⌋ else ⌈q⌉

/-- Oracle inputs of execute_research: the outcomes of the external agent
phases and of the history-database insert. -/
structure RunOracles where
  genStructure : Except String (List String)
  search : ℕ → Except String Unit
  reflect : ℕ → Except String Unit
  finalReport : Except String String
  saveReport : Except String Unit
  dbInsert : Except String Unit

/-- Observable outcome of one run: the sequence of progress values passed to
the progress bar, the warnings and errors shown, the number of history-save
attempts, and the final report delivered to display_results, if any. -/
structure RunResult where
  progress : List ℤ
  warnings : List String
  errors : List String
  saveAttempts : ℕ
  delivered : Option String
deriving DecidableEq

/-- The paragraph loop of execute_research over the remaining paragraph
indices: each iteration reports int of the mid progress after the initial
search and int of the end progress after the reflection; an exception aborts
the rest of the loop. -/
def paraLoop (o : RunOracles) (N : ℕ) : List ℕ → List ℤ × Option String
  | [] => ([], none)
  | i :: rest =>
    match o.search i with
    | .error e => ([], some e)
    | .ok _ =>
      match o.reflect i with
      | .error e => ([pyInt (progressAfterSearch N i)], some e)
      | .ok _ =>
        let out := paraLoop o N rest
        (pyInt (progressAfterSearch N i) :: pyInt (progressAfterReflect N i) :: out.1, out.2)

/-- execute_research: the progress bar is created at 0, set to 10 after
agent initialization and 20 after structure generation, stepped through the
paragraph loop, then 90 after final-report synthesis and 100 after the agent
report save; the history insert runs in its own try block whose failure
produces a warning, and the result is then displayed; any other exception is
caught by the outer handler as a run error and nothing is displayed. -/
def execute_research (o : RunOracles) : RunResult :=
  match o.genStructure with
  | .error e => ⟨[0, 10], [], [runErrMsg e], 0, none⟩
  | .ok titles =>
    let N := titles.length
    let out := paraLoop o N (List.range N)
    match out.2 with
    | some e => ⟨0 :: 10 :: 20 :: out.1, [], [runErrMsg e], 0, none⟩
    | none =>
      match o.finalReport with
      | .error e => ⟨0 :: 10 :: 20 :: out.1, [], [runErrMsg e], 0, none⟩
      | .ok fr =>
        match o.saveReport with
        | .error e => ⟨0 :: 10 :: 20 :: (out.1 ++ [90]), [], [runErrMsg e], 0, none⟩
        | .ok _ =>
          match o.dbInsert with
          | .error e => ⟨0 :: 10 :: 20 :: (out.1 ++ [90, 100]), [dbWarnMsg e], [], 1, some fr⟩
          | .ok _ => ⟨0 :: 10 :: 20 :: (out.1 ++ [90, 100]), [], [], 1, some fr⟩

/-- When every search and reflection succeeds, the paragraph loop reports
the int mid and end progress values of each paragraph in order and raises
nothing. -/
theorem paraLoop_ok (o : RunOracles) (N : ℕ)
    (h1 : ∀ i, o.search i = .ok ()) (h2 : ∀ i, o.reflect i = .ok ()) :
    ∀ l : List ℕ, paraLoop o N l =
      ((l.map fun i =>
        [pyInt (progressAfterSearch N i), pyInt (progressAfterReflect N i)]).flatten, none)
  | [] => rfl
  | i :: rest => by
    simp [paraLoop, h1 i, h2 i, paraLoop_ok o N h1 h2 rest]

/-- Evaluation helper: Python int of a nonnegative rational between z and
z + 1 is z. -/
theorem pyInt_eval (q : ℚ) (z : ℤ) (h0 : 0 ≤ q) (h1 : (z : ℚ) ≤ q) (h2 : q < z + 1) :
    pyInt q = z := by
  unfold pyInt
  rw [if_pos h0]
  exact Int.floor_eq_iff.mpr ⟨h1, h2⟩

/-- C9: when all research phases succeed, exactly one history save is
attempted for the run; a failure of that save produces a single warning and
no run error (the exception does not propagate), and the completed report is
still delivered to the caller whether the save succeeds or fails. -/
theorem run_save_failure_not_fatal (o : RunOracles) (ts : List String) (fr : String)
    (hs : o.genStructure = .ok ts)
    (h1 : ∀ i, o.search i = .ok ()) (h2 : ∀ i, o.reflect i = .ok ())
    (hfr : o.finalReport = .ok fr) (hsv : o.saveReport = .ok ()) :
    (execute_research o).saveAttempts = 1 ∧
    (execute_research o).delivered = some fr ∧
    (execute_research o).errors = [] ∧
    (∀ m, o.dbInsert = .error m → (execute_research o).warnings = [dbWarnMsg m]) ∧
    (o.dbInsert = .ok () → (execute_research o).warnings = []) := by
  have hloop := paraLoop_ok o ts.length h1 h2 (List.range ts.length)
  cases hdb : o.dbInsert with
  | ok u =>
    cases u
    refine ⟨?_, ?_, ?_, ?_, ?_⟩ <;>
      simp [execute_research, hs, hloop, hfr, hsv, hdb]
  | error m =>
    refine ⟨?_, ?_, ?_, ?_, ?_⟩ <;>
      simp [execute_research, hs, hloop, hfr, hsv, hdb]

/-- Concrete oracle set for the C9 witness: all phases succeed, the history
insert raises. -/
def runOraclesDbFail : RunOracles :=
  { genStructure := .ok ["第一段", "第二段", "第三段"], search := fun _ => .ok (),
    reflect := fun _ => .ok (), finalReport := .ok "最终报告", saveReport := .ok (),
    dbInsert := .error "database is locked" }

/-- C9 witness: a concrete run whose history save fails still delivers the
report, with one save attempt, one warning and no error. -/
theorem run_save_failure_not_fatal_witness :
    (execute_research runOraclesDbFail).saveAttempts = 1 ∧
    (execute_research runOraclesDbFail).delivered = some "最终报告" ∧
    (execute_research runOraclesDbFail).errors = [] ∧
    (execute_research runOraclesDbFail).warnings = [dbWarnMsg "database is locked"] := by
  obtain ⟨a, b, c, d, e⟩ := run_save_failure_not_fatal runOraclesDbFail
    ["第一段", "第二段", "第三段"] "最终报告" rfl (fun _ => rfl) (fun _ => rfl) rfl rfl
  exact ⟨a, b, c, d "database is locked" rfl⟩

/-- C6 (amended): the progress value reported after the initial search of
paragraph i of N is int(20 + (i + 0.5) / N * 60) — Python int truncation
(the floor, the value being nonnegative) of the exact fraction, not the
fraction itself — and after its reflection int(20 + (i + 1) / N * 60); the
reported sequence of a fully successful N-paragraph run is determined by N
alone, independent of paragraph content, and every reported loop value lies
in [20, 80]; for N = 3 the full reported sequence is [0, 10, 20, 30, 40,
50, 60, 70, 80, 90, 100], so the end-of-paragraph values are exactly
40, 60, 80. -/
theorem run_progress_trace (o : RunOracles) (ts : List String) (fr : String)
    (hs : o.genStructure = .ok ts)
    (h1 : ∀ i, o.search i = .ok ()) (h2 : ∀ i, o.reflect i = .ok ())
    (hfr : o.finalReport = .ok fr) (hsv : o.saveReport = .ok ()) (hdb : o.dbInsert = .ok ()) :
    (execute_research o).progress =
      0 :: 10 :: 20 ::
        (((List.range ts.length).map fun i =>
          [pyInt (progressAfterSearch ts.length i),
            pyInt (progressAfterReflect ts.length i)]).flatten ++ [90, 100]) ∧
    (∀ i, i < ts.length →
      pyInt (progressAfterSearch ts.length i) = ⌊progressAfterSearch ts.length i⌋ ∧
      pyInt (progressAfterReflect ts.length i) = ⌊progressAfterReflect ts.length i⌋ ∧
      (20 ≤ pyInt (progressAfterSearch ts.length i) ∧
        pyInt (progressAfterSearch ts.length i) ≤ 80) ∧
      (20 ≤ pyInt (progressAfterReflect ts.length i) ∧
        pyInt (progressAfterReflect ts.length i) ≤ 80)) ∧
    (ts.length = 3 →
      (execute_research o).progress = [0, 10, 20, 30, 40, 50, 60, 70, 80, 90, 100]) := by
  have hloop := paraLoop_ok o ts.length h1 h2 (List.range ts.length)
  have hfirst : (execute_research o).progress =
      0 :: 10 :: 20 ::
        (((List.range ts.length).map fun i =>
          [pyInt (progressAfterSearch ts.length i),
            pyInt (progressAfterReflect ts.length i)]).flatten ++ [90, 100]) := by
    simp [execute_research, hs, hloop, hfr, hsv, hdb]
  refine ⟨hfirst, ?_, ?_⟩
  · intro i hi
    have hN : (0 : ℚ) < (ts.length : ℚ) := by
      have hp : 0 < ts.length := Nat.lt_of_le_of_lt (Nat.zero_le i) hi
      exact_mod_cast hp
    have h0s : (0 : ℚ) ≤ progressAfterSearch ts.length i := by
      unfold progressAfterSearch
      positivity
    have h0r : (0 : ℚ) ≤ progressAfterReflect ts.length i := by
      unfold progressAfterReflect
      positivity
    have hcast : ((i : ℚ) + 1) ≤ (ts.length : ℚ) := by
      have hc : (i + 1 : ℕ) ≤ ts.length := hi
      exact_mod_cast hc
    have hles : ((i : ℚ) + 0.5) / (ts.length : ℚ) ≤ 1 := by
      rw [div_le_one hN]
      linarith
    have hler : ((i : ℚ) + 1) / (ts.length : ℚ) ≤ 1 := by
      rw [div_le_one hN]
      linarith
    have h80s : progressAfterSearch ts.length i ≤ 80 := by
      unfold progressAfterSearch
      nlinarith [hles]
    have h80r : progressAfterReflect ts.length i ≤ 80 := by
      unfold progressAfterReflect
      nlinarith [hler]
    refine ⟨?_, ?_, ⟨?_, ?_⟩, ⟨?_, ?_⟩⟩
    · unfold pyInt
      rw [if_pos h0s]
    · unfold pyInt
      rw [if_pos h0r]
    · unfold pyInt
      rw [if_pos h0s]
      refine Int.le_floor.mpr ?_
      unfold progressAfterSearch
      have hx : (0 : ℚ) ≤ ((i : ℚ) + 0.5) / (ts.length : ℚ) * 60 := by positivity
      push_cast
      linarith
    · unfold pyInt
      rw [if_pos h0s]
      calc ⌊progressAfterSearch ts.length i⌋ ≤ ⌊(80 : ℚ)⌋ := Int.floor_le_floor h80s
        _ = 80 := by norm_num
    · unfold pyInt
      rw [if_pos h0r]
      refine Int.le_floor.mpr ?_
      unfold progressAfterReflect
      have hx : (0 : ℚ) ≤ ((i : ℚ) + 1) / (ts.length : ℚ) * 60 := by positivity
      push_cast
      linarith
    · unfold pyInt
      rw [if_pos h0r]
      calc ⌊progressAfterReflect ts.length i⌋ ≤ ⌊(80 : ℚ)⌋ := Int.floor_le_floor h80r
        _ = 80 := by norm_num
  · intro h3
    rw [hfirst, h3]
    have e1 : pyInt (progressAfterSearch 3 0) = 30 :=
      pyInt_eval _ _ (by norm_num [progressAfterSearch]) (by norm_num [progressAfterSearch])
        (by norm_num [progressAfterSearch])
    have e2 : pyInt (progressAfterReflect 3 0) = 40 :=
      pyInt_eval _ _ (by norm_num [progressAfterReflect]) (by norm_num [progressAfterReflect])
        (by norm_num [progressAfterReflect])
    have e3 : pyInt (progressAfterSearch 3 1) = 50 :=
      pyInt_eval _ _ (by norm_num [progressAfterSearch]) (by norm_num [progressAfterSearch])
        (by norm_num [progressAfterSearch])
    have e4 : pyInt (progressAfterReflect 3 1) = 60 :=
      pyInt_eval _ _ (by norm_num [progressAfterReflect]) (by norm_num [progressAfterReflect])
        (by norm_num [progressAfterReflect])
    have e5 : pyInt (progressAfterSearch 3 2) = 70 :=
      pyInt_eval _ _ (by norm_num [progressAfterSearch]) (by norm_num [progressAfterSearch])
        (by norm_num [progressAfterSearch])
    have e6 : pyInt (progressAfterReflect 3 2) = 80 :=
      pyInt_eval _ _ (by norm_num [progressAfterReflect]) (by norm_num [progressAfterReflect])
        (by norm_num [progressAfterReflect])
    rw [show List.range 3 = [0, 1, 2] from rfl]
    simp [e1, e2, e3, e4, e5, e6]

/-- Concrete oracle set for the C6 witness: three paragraphs, all phases
succeed. -/
def runOracles3 : RunOracles :=
  { genStructure := .ok ["一", "二", "三"], search := fun _ => .ok (),
    reflect := fun _ => .ok (), finalReport := .ok "最终报告", saveReport := .ok (),
    dbInsert := .ok () }

/-- C6 witness: a concrete three-paragraph run reports exactly the sequence
0, 10, 20, 30, 40, 50, 60, 70, 80, 90, 100. -/
theorem run_progress_trace_witness :
    (execute_research runOracles3).progress = [0, 10, 20, 30, 40, 50, 60, 70, 80, 90, 100] :=
  (run_progress_trace runOracles3 ["一", "二", "三"] "最终报告" rfl (fun _ => rfl)
    (fun _ => rfl) rfl rfl rfl).2.2 rfl

/-- Concrete oracle set for the C6 counterexample: seven paragraphs, all
phases succeed. -/
def runOracles7 : RunOracles :=
  { genStructure := .ok ["a", "b", "c", "d", "e", "f", "g"], search := fun _ => .ok (),
    reflect := fun _ => .ok (), finalReport := .ok "r", saveReport := .ok (),
    dbInsert := .ok () }

/-- C6 counterexample: with N = 7 paragraphs, the value reported after the
initial search of paragraph 0 (the fourth progress report of the run) is the
truncated 24, which differs from the exact fraction 20 + (0 + 0.5) / 7 * 60
= 170/7 that the claim asserts is reported. -/
theorem run_progress_trace_cex :
    (execute_research runOracles7).progress.get? 3 = some 24 ∧
    ((24 : ℚ) ≠ 20 + ((0 : ℚ) + 0.5) / 7 * 60) := by
  constructor
  · have hloop := paraLoop_ok runOracles7 7 (fun _ => rfl) (fun _ => rfl) (List.range 7)
    have h24 : pyInt (progressAfterSearch 7 0) = 24 :=
      pyInt_eval _ _ (by norm_num [progressAfterSearch]) (by norm_num [progressAfterSearch])
        (by norm_num [progressAfterSearch])
    have hfirst : (execute_research runOracles7).progress =
        0 :: 10 :: 20 ::
          (((List.range 7).map fun i =>
            [pyInt (progressAfterSearch 7 i), pyInt (progressAfterReflect 7 i)]).flatten
            ++ [90, 100]) := by
      have hg : runOracles7.genStructure = Except.ok ["a", "b", "c", "d", "e", "f", "g"] := rfl
      have hfr : runOracles7.finalReport = Except.ok "r" := rfl
      have hsv : runOracles7.saveReport = Except.ok () := rfl
      have hdb : runOracles7.dbInsert = Except.ok () := rfl
      simp [execute_research, hg, hfr, hsv, hdb, hloop]
    rw [hfirst, show List.range 7 = [0, 1, 2, 3, 4, 5, 6] from rfl]
    simp [h24]
  · norm_num
